import Mathlib

/-!
Verification of the Task Reminder System (Flask CRUD application).

The request handlers live in `scripts/task_reminder.py` and are embedded
directly from that source.  The persistence layer (`database.db_manager`)
and the validation module (`database.model`) are collaborators whose code
is not part of the handler file; they are modelled from the specification,
with each such definition marked `Modelled from the spec:`.
-/

namespace TaskReminder

/-- A task record: `id` (unique, assigned at creation), `description`
(non-empty text, length-bounded), `priority` (one of Low/Medium/High),
`completed` (boolean, default false). -/
structure Task where
  id : Nat
  description : String
  priority : String
  completed : Bool
deriving Repr, DecidableEq

/-- The persistent task store, an ordered sequence of task rows. -/
abbrev Store := List Task

/-- Modelled from the spec: `load_all() -> ordered sequence of Task`,
a read-only snapshot of the store (`database.db_manager.load_tasks`). -/
def load_tasks (s : Store) : List Task := s

/-- Largest id currently present in the store (0 when empty); used to
assign fresh ids. -/
def max_id (s : Store) : Nat := (s.map Task.id).foldr max 0

/-- Modelled from the spec: `add(description, priority) -> id` assigns a
new unique id and appends (`database.db_manager.add_task`).  The fresh id
is one more than the largest id present, so an empty store yields id 1. -/
def add_task (s : Store) (description priority : String) : Nat × Store :=
  let id := max_id s + 1
  (id, s ++ [{ id := id, description := description, priority := priority,
               completed := false }])

/-- Modelled from the spec: `update(id, description, priority) -> bool`,
true if a task with `id` exists and was overwritten, else false
(`database.db_manager.update_task`). -/
def update_task (s : Store) (id : Nat) (description priority : String) :
    Bool × Store :=
  if s.any (fun t => t.id == id) then
    (true, s.map (fun t =>
      if t.id == id then
        { t with description := description, priority := priority }
      else t))
  else (false, s)

/-- Modelled from the spec: `delete(id) -> bool`, same existence contract
as update (`database.db_manager.delete_task`). -/
def delete_task (s : Store) (id : Nat) : Bool × Store :=
  if s.any (fun t => t.id == id) then
    (true, s.filter (fun t => t.id != id))
  else (false, s)

/-- Modelled from the spec: `mark(id, completed) -> bool`, same existence
contract as update (`database.db_manager.mark_task`). -/
def mark_task (s : Store) (id : Nat) (completed : Bool) : Bool × Store :=
  if s.any (fun t => t.id == id) then
    (true, s.map (fun t =>
      if t.id == id then { t with completed := completed } else t))
  else (false, s)

/-- Modelled from the spec: `validate_description(text) -> (ok, error_message)`
fails when text is empty/whitespace-only or exceeds a max length, with a
human-readable reason (`database.model.validate_task_description`).  The
spec leaves the length bound abstract, so it is a parameter `maxLen`; an
absent form field (Python `None`) counts as empty. -/
def validate_task_description (maxLen : Nat) (text : Option String) :
    Bool × String :=
  match text with
  | none => (false, "Task description cannot be empty.")
  | some t =>
    if t.toList.all Char.isWhitespace then
      (false, "Task description cannot be empty.")
    else if maxLen < t.length then
      (false, "Task description exceeds the maximum length.")
    else (true, "")

/-- Modelled from the spec: `validate_priority(value) -> bool`, true only
for the three recognized enum values (`database.model.validate_priority`).
It accepts an `Option` because the update handler passes the raw form
value, which may be absent. -/
def validate_priority (v : Option String) : Bool :=
  v == some "Low" || v == some "Medium" || v == some "High"

/-- A handler response: a JSON body for script-originated requests, a
redirect to the index carrying a flash message for browser requests, or
(for the index route only) a rendered page with its flashed messages. -/
inductive Response where
  | json (message status : String)
  | redirectFlash (message status : String)
  | render (tasks : List Task) (flashed : List (String × String))
deriving Repr, DecidableEq

/-- Whether the response is a JSON body. -/
def Response.isJson : Response → Bool
  | .json _ _ => true
  | _ => false

/-- Whether the response is a redirect carrying a flash message. -/
def Response.isRedirectFlash : Response → Bool
  | .redirectFlash _ _ => true
  | _ => false

/-- The `status` field carried by a JSON or flash response (a rendered
page has none). -/
def Response.status : Response → String
  | .json _ s => s
  | .redirectFlash _ s => s
  | .render _ _ => ""

/-- The tail of every mutating handler (source lines 84-87, 120-123,
139-142, 158-161, 177-180): JSON `\x7bmessage, status\x7d` when the
`X-Requested-With` header marks a script request, else flash + redirect. -/
def respond (xhr : Bool) (message status : String) : Response :=
  if xhr then .json message status else .redirectFlash message status

/-- An incoming request: the `X-Requested-With == XMLHttpRequest` origin
marker and the two form fields, each possibly absent. -/
structure Request where
  xhr : Bool
  description : Option String
  priority : Option String
deriving Repr, DecidableEq

/-- `index` (source lines 45-54): load all tasks and render the page; on a
storage exception, flash an error and render an empty list.  The request's
origin marker is ignored by this handler. -/
def index_handler (xhr : Bool) (storageFail : Bool) (store : Store) :
    Response × Store :=
  if storageFail then
    (.render [] [("An error occurred while loading tasks.", "error")], store)
  else
    (.render (load_tasks store) [], store)

/-- `add` (source lines 56-87): parse the form (priority defaults to
Medium), validate the description, silently correct an unrecognized
priority to Medium, then append the task; a storage exception degrades to
a generic failure message.  `storageFail` models the persistence call
raising. -/
def add_handler (maxLen : Nat) (req : Request) (storageFail : Bool)
    (store : Store) : Response × Store :=
  let description := req.description
  let priority := req.priority.getD "Medium"
  let v := validate_task_description maxLen description
  if !v.fst then
    (respond req.xhr v.snd "error", store)
  else
    let priority := if validate_priority (some priority) then priority
                    else "Medium"
    if storageFail then
      (respond req.xhr "Failed to add task. Please try again." "error", store)
    else
      let r := add_task store (description.getD "") priority
      (respond req.xhr
        ("Task added: " ++ description.getD "" ++ " (ID: " ++
          toString r.fst ++ ", Priority: " ++ priority ++ ")") "success",
       r.snd)

/-- `update` (source lines 89-123): parse the form (priority has no
default, so an absent field is `none`), validate the description, silently
correct an unrecognized priority to Medium, then overwrite the task if it
exists; not-found reports an error, and a storage exception degrades to a
generic failure message. -/
def update_handler (maxLen : Nat) (task_id : Nat) (req : Request)
    (storageFail : Bool) (store : Store) : Response × Store :=
  let new_description := req.description
  let new_priority := req.priority
  let v := validate_task_description maxLen new_description
  if !v.fst then
    (respond req.xhr v.snd "error", store)
  else
    let new_priority := if validate_priority new_priority then
                          new_priority.getD "Medium"
                        else "Medium"
    if storageFail then
      (respond req.xhr "Failed to update task. Please try again." "error",
       store)
    else
      let r := update_task store task_id (new_description.getD "")
        new_priority
      if r.fst then
        (respond req.xhr
          ("Task updated: " ++ new_description.getD "" ++ " (ID: " ++
            toString task_id ++ ", Priority: " ++ new_priority ++ ")")
          "success", r.snd)
      else
        (respond req.xhr ("Task ID " ++ toString task_id ++ " not found.")
          "error", r.snd)

/-- `delete` (source lines 125-142): delete the task if it exists;
not-found reports an error, and a storage exception degrades to a generic
failure message. -/
def delete_handler (task_id : Nat) (xhr : Bool) (storageFail : Bool)
    (store : Store) : Response × Store :=
  if storageFail then
    (respond xhr "Failed to delete task. Please try again." "error", store)
  else
    let r := delete_task store task_id
    if r.fst then
      (respond xhr ("Task ID " ++ toString task_id ++ " deleted.")
        "success", r.snd)
    else
      (respond xhr ("Task ID " ++ toString task_id ++ " not found.")
        "error", r.snd)

/-- `complete` (source lines 144-161): mark the task completed if it
exists; not-found reports an error, and a storage exception degrades to a
generic failure message. -/
def complete_handler (task_id : Nat) (xhr : Bool) (storageFail : Bool)
    (store : Store) : Response × Store :=
  if storageFail then
    (respond xhr "Failed to mark task as complete. Please try again."
      "error", store)
  else
    let r := mark_task store task_id true
    if r.fst then
      (respond xhr ("Task ID " ++ toString task_id ++
        " marked as completed.") "success", r.snd)
    else
      (respond xhr ("Task ID " ++ toString task_id ++ " not found.")
        "error", r.snd)

/-- `incomplete` (source lines 163-180): mark the task not completed if it
exists; not-found reports an error, and a storage exception degrades to a
generic failure message. -/
def incomplete_handler (task_id : Nat) (xhr : Bool) (storageFail : Bool)
    (store : Store) : Response × Store :=
  if storageFail then
    (respond xhr "Failed to mark task as incomplete. Please try again."
      "error", store)
  else
    let r := mark_task store task_id false
    if r.fst then
      (respond xhr ("Task ID " ++ toString task_id ++
        " marked as incomplete.") "success", r.snd)
    else
      (respond xhr ("Task ID " ++ toString task_id ++ " not found.")
        "error", r.snd)

/-- Module-level startup (source lines 37-42): `init_db()` is attempted;
on success the app proceeds with the initialized store, on failure the
exception is logged and re-raised, aborting startup.  The outcome of the
spec-modelled `init()` is the argument. -/
def startup (initResult : Except String Store) : Except String Store :=
  match initResult with
  | .ok s => .ok s
  | .error e => .error e

/-! ### Helper lemmas -/

/-- The existence test used by the mutators holds exactly when a task with
the id is in the store. -/
lemma any_id_iff (s : Store) (id : Nat) :
    s.any (fun t => t.id == id) = true ↔ ∃ t, t ∈ s ∧ t.id = id := by
  simp [List.any_eq_true]

/-- The existence test fails when no task carries the id. -/
lemma any_id_eq_false {s : Store} {id : Nat} (h : ∀ t ∈ s, t.id ≠ id) :
    s.any (fun t => t.id == id) = false := by
  simp only [List.any_eq_false]
  intro t ht
  simpa using h t ht

/-- Every task in the store has id at most `max_id`. -/
lemma id_le_max_id {s : Store} {t : Task} (h : t ∈ s) : t.id ≤ max_id s := by
  induction s with
  | nil => cases h
  | cons x xs ih =>
    unfold max_id at *
    simp only [List.map_cons, List.foldr_cons]
    rcases List.mem_cons.mp h with rfl | hx
    · exact le_max_left _ _
    · exact le_trans (ih hx) (le_max_right _ _)

/-- `respond` always reports the status it was given. -/
lemma respond_status (xhr : Bool) (m s : String) :
    (respond xhr m s).status = s := by
  cases xhr <;> rfl

/-- `respond` yields JSON exactly on script-originated requests. -/
lemma respond_isJson (xhr : Bool) (m s : String) :
    (respond xhr m s).isJson = xhr := by
  cases xhr <;> rfl

/-- `respond` yields redirect+flash exactly on browser requests. -/
lemma respond_isRedirectFlash (xhr : Bool) (m s : String) :
    (respond xhr m s).isRedirectFlash = !xhr := by
  cases xhr <;> rfl

/-! ### Claim theorems -/

/-- C1.  On an id that identifies no task in the store, `update_task`,
`delete_task` and `mark_task` each return false and leave the store (hence
every task in it) unchanged. -/
theorem update_delete_mark_nonexistent (s : Store) (id : Nat)
    (d p : String) (c : Bool) (h : ∀ t ∈ s, t.id ≠ id) :
    update_task s id d p = (false, s) ∧
    delete_task s id = (false, s) ∧
    mark_task s id c = (false, s) := by
  have hany := any_id_eq_false h
  refine ⟨?_, ?_, ?_⟩ <;> simp [update_task, delete_task, mark_task, hany]

/-- C1 witness: at a concrete store and absent id, all three mutators
return false and change nothing. -/
theorem update_delete_mark_nonexistent_witness :
    update_task [⟨1, "a", "Low", false⟩] 2 "b" "High" =
      (false, [⟨1, "a", "Low", false⟩]) ∧
    delete_task [⟨1, "a", "Low", false⟩] 2 =
      (false, [⟨1, "a", "Low", false⟩]) ∧
    mark_task [⟨1, "a", "Low", false⟩] 2 true =
      (false, [⟨1, "a", "Low", false⟩]) :=
  update_delete_mark_nonexistent [⟨1, "a", "Low", false⟩] 2 "b" "High" true
    (by decide)

/-- C8.  From the empty store, adding "Buy milk" with priority "High"
returns id 1, and loading all tasks yields exactly that one task with
`completed = false`. -/
theorem add_buy_milk_example :
    (add_task [] "Buy milk" "High").fst = 1 ∧
    load_tasks (add_task [] "Buy milk" "High").snd =
      [{ id := 1, description := "Buy milk", priority := "High",
         completed := false }] := by
  exact ⟨rfl, rfl⟩

/-- C2.  `validate_task_description` rejects exactly the empty,
whitespace-only, or over-long texts (an empty text is whitespace-only, so
the first disjunct is subsumed but kept to mirror the claim), and every
rejection carries a non-empty error message; every other text is
accepted. -/
theorem validate_description_characterization (maxLen : Nat) (t : String) :
    ((validate_task_description maxLen (some t)).fst = false ↔
      (t = "" ∨ t.toList.all Char.isWhitespace = true ∨
        maxLen < t.length)) ∧
    ((validate_task_description maxLen (some t)).fst = false →
      (validate_task_description maxLen (some t)).snd ≠ "") := by
  have hred : validate_task_description maxLen (some t) =
      (if t.toList.all Char.isWhitespace then
        (false, "Task description cannot be empty.")
      else if maxLen < t.length then
        (false, "Task description exceeds the maximum length.")
      else (true, "")) := rfl
  rw [hred]
  split
  · rename_i hw
    exact ⟨⟨fun _ => Or.inr (Or.inl hw), fun _ => rfl⟩, fun _ => by decide⟩
  · rename_i hw
    split
    · rename_i hl
      exact ⟨⟨fun _ => Or.inr (Or.inr hl), fun _ => rfl⟩,
             fun _ => by decide⟩
    · rename_i hl
      refine ⟨⟨fun h => absurd h (by simp), fun h => ?_⟩,
              fun h => absurd h (by simp)⟩
      rcases h with rfl | h | h
      · exact absurd (by decide) hw
      · exact absurd h hw
      · exact absurd h hl

/-- C2 witness: the whitespace-only text "  " is rejected (with a
non-empty message), via the characterization at `maxLen = 100`. -/
theorem validate_description_characterization_witness :
    (validate_task_description 100 (some "  ")).fst = false :=
  ((validate_description_characterization 100 "  ").1).mpr
    (Or.inr (Or.inl (by decide)))

/-- C3.  After `add_task`, the loaded store contains a task whose id is
the returned id, whose description and priority are the arguments, whose
completed flag is false, and whose id differs from the id of every task
present before the add. -/
theorem add_then_load_contains (s : Store) (d p : String) :
    ∃ t, t ∈ load_tasks (add_task s d p).snd ∧
      t.id = (add_task s d p).fst ∧ t.description = d ∧ t.priority = p ∧
      t.completed = false ∧ ∀ u ∈ s, u.id ≠ (add_task s d p).fst := by
  refine ⟨{ id := max_id s + 1, description := d, priority := p,
            completed := false }, ?_, rfl, rfl, rfl, rfl, ?_⟩
  · simp [load_tasks, add_task]
  · intro u hu
    have hle := id_le_max_id hu
    simp only [add_task]
    omega

/-- C3 witness: a concrete instance of the add-then-load property on a
one-task store. -/
theorem add_then_load_contains_witness :
    ∃ t, t ∈ load_tasks (add_task [⟨1, "a", "Low", true⟩] "b" "High").snd ∧
      t.id = (add_task [⟨1, "a", "Low", true⟩] "b" "High").fst ∧
      t.description = "b" ∧ t.priority = "High" ∧ t.completed = false ∧
      ∀ u ∈ ([⟨1, "a", "Low", true⟩] : Store),
        u.id ≠ (add_task [⟨1, "a", "Low", true⟩] "b" "High").fst :=
  add_then_load_contains [⟨1, "a", "Low", true⟩] "b" "High"

/-- `mark_task` reports success when a task with the id exists. -/
lemma mark_found {s : Store} {id : Nat} (c : Bool)
    (h : ∃ t, t ∈ s ∧ t.id = id) : (mark_task s id c).fst = true := by
  have ha := (any_id_iff s id).mpr h
  simp [mark_task, ha]

/-- `mark_task` preserves the presence of the marked id. -/
lemma exists_id_mark {s : Store} {id : Nat} (c : Bool)
    (h : ∃ t, t ∈ s ∧ t.id = id) :
    ∃ t, t ∈ (mark_task s id c).snd ∧ t.id = id := by
  have ha := (any_id_iff s id).mpr h
  obtain ⟨t, ht, hid⟩ := h
  unfold mark_task
  rw [if_pos ha]
  refine ⟨if t.id == id then { t with completed := c } else t,
          List.mem_map.mpr ⟨t, ht, rfl⟩, ?_⟩
  have hproj : (if t.id == id then { t with completed := c } else t).id
      = t.id := by
    split <;> rfl
  rw [hproj]
  exact hid

/-- After `mark_task s id c` on a store containing the id, every task
carrying that id has its completed flag equal to `c`. -/
lemma mark_completed_at_id {s : Store} {id : Nat} {c : Bool} {t : Task}
    (hex : ∃ u, u ∈ s ∧ u.id = id)
    (ht : t ∈ (mark_task s id c).snd) (hid : t.id = id) :
    t.completed = c := by
  have ha := (any_id_iff s id).mpr hex
  unfold mark_task at ht
  rw [if_pos ha] at ht
  obtain ⟨u, hu, hgu⟩ := List.mem_map.mp ht
  by_cases hb : u.id = id
  · have hbt : (u.id == id) = true := beq_iff_eq.mpr hb
    rw [← hgu]
    rw [if_pos hbt]
  · have hbf : ¬((u.id == id) = true) := by
      simpa using hb
    rw [if_neg hbf] at hgu
    rw [← hgu] at hid
    exact absurd hid hb

/-- C5.  On a store containing a task with the given id, marking it
completed and then not completed both succeed, and afterwards the task
with that id has `completed = false`. -/
theorem mark_true_then_false_roundtrip (s : Store) (id : Nat)
    (h : ∃ t, t ∈ s ∧ t.id = id) :
    (mark_task s id true).fst = true ∧
    (mark_task (mark_task s id true).snd id false).fst = true ∧
    ∀ t, t ∈ (mark_task (mark_task s id true).snd id false).snd →
      t.id = id → t.completed = false :=
  ⟨mark_found true h, mark_found false (exists_id_mark true h),
   fun _ ht hid => mark_completed_at_id (exists_id_mark true h) ht hid⟩

/-- C5 witness: the round-trip on a concrete one-task store. -/
theorem mark_true_then_false_roundtrip_witness :
    (mark_task [⟨1, "a", "Low", false⟩] 1 true).fst = true ∧
    (mark_task (mark_task [⟨1, "a", "Low", false⟩] 1 true).snd 1
      false).fst = true ∧
    ∀ t, t ∈ (mark_task (mark_task [⟨1, "a", "Low", false⟩] 1 true).snd 1
      false).snd → t.id = 1 → t.completed = false :=
  mark_true_then_false_roundtrip [⟨1, "a", "Low", false⟩] 1
    ⟨⟨1, "a", "Low", false⟩, by simp, rfl⟩

/-- C9.  When the description fails validation, the add and update
handlers return the validation-error response and the store is exactly
unchanged; the result does not depend on the persistence outcome
(`storageFail` is arbitrary), since persistence is never invoked. -/
theorem invalid_description_no_effect (maxLen tid : Nat) (req : Request)
    (sf : Bool) (store : Store)
    (h : (validate_task_description maxLen req.description).fst = false) :
    add_handler maxLen req sf store =
      (respond req.xhr
        (validate_task_description maxLen req.description).snd "error",
       store) ∧
    update_handler maxLen tid req sf store =
      (respond req.xhr
        (validate_task_description maxLen req.description).snd "error",
       store) := by
  constructor <;> simp [add_handler, update_handler, h]

/-- C9 witness: a request with an absent description leaves a concrete
store untouched and reports the validation error. -/
theorem invalid_description_no_effect_witness :
    add_handler 100 ⟨true, none, none⟩ false [⟨1, "a", "Low", false⟩] =
      (respond true (validate_task_description 100 none).snd "error",
       [⟨1, "a", "Low", false⟩]) ∧
    update_handler 100 1 ⟨true, none, none⟩ false
      [⟨1, "a", "Low", false⟩] =
      (respond true (validate_task_description 100 none).snd "error",
       [⟨1, "a", "Low", false⟩]) :=
  invalid_description_no_effect 100 1 ⟨true, none, none⟩ false
    [⟨1, "a", "Low", false⟩] (by decide)

/-- C10.  With the priority form field absent, the update handler treats
the missing value as unrecognized and stores Medium, the add handler
substitutes Medium already at parse time via the form default, and in
neither case does the absent field cause an error (the add response and,
when the id exists, the update response report success). -/
theorem absent_priority_defaults_to_medium (maxLen tid : Nat)
    (req : Request) (store : Store)
    (hp : req.priority = none)
    (hd : (validate_task_description maxLen req.description).fst = true) :
    (update_handler maxLen tid req false store).snd =
      (update_task store tid (req.description.getD "") "Medium").snd ∧
    (store.any (fun t => t.id == tid) = true →
      ((update_handler maxLen tid req false store).fst).status =
        "success") ∧
    (add_handler maxLen req false store).snd =
      (add_task store (req.description.getD "") "Medium").snd ∧
    ((add_handler maxLen req false store).fst).status = "success" := by
  have hvn : validate_priority none = false := by decide
  have hvm : validate_priority (some "Medium") = true := by decide
  refine ⟨?_, ?_, ?_, ?_⟩
  · simp only [update_handler, hp, hd, hvn]
    simp only [Bool.not_true, Bool.false_eq_true, if_false]
    split <;> rfl
  · intro hfound
    have hfst : (update_task store tid (req.description.getD "")
        "Medium").fst = true := by
      simp [update_task, hfound]
    simp [update_handler, hp, hd, hvn, hfst, respond_status]
  · simp [add_handler, hp, hd, hvm]
  · simp [add_handler, hp, hd, hvm, respond_status]

/-- C10 witness: a concrete update and add with the priority field absent
store Medium and report success. -/
theorem absent_priority_defaults_to_medium_witness :
    (update_handler 100 1 ⟨false, some "Buy milk", none⟩ false
      [⟨1, "a", "Low", false⟩]).snd =
      (update_task [⟨1, "a", "Low", false⟩] 1 "Buy milk" "Medium").snd ∧
    (([⟨1, "a", "Low", false⟩] : Store).any (fun t => t.id == 1) = true →
      ((update_handler 100 1 ⟨false, some "Buy milk", none⟩ false
        [⟨1, "a", "Low", false⟩]).fst).status = "success") ∧
    (add_handler 100 ⟨false, some "Buy milk", none⟩ false
      [⟨1, "a", "Low", false⟩]).snd =
      (add_task [⟨1, "a", "Low", false⟩] "Buy milk" "Medium").snd ∧
    ((add_handler 100 ⟨false, some "Buy milk", none⟩ false
      [⟨1, "a", "Low", false⟩]).fst).status = "success" :=
  absent_priority_defaults_to_medium 100 1 ⟨false, some "Buy milk", none⟩
    [⟨1, "a", "Low", false⟩] rfl (by decide)

/-- C4.  `validate_priority` is true exactly on the three recognized enum
values Low, Medium, High; and (on a valid description, so that the
priority branch is reached) the add and update handlers pass a recognized
priority to persistence unchanged, substitute Medium for an unrecognized
one, and proceed without error. -/
theorem priority_enum_and_fallback (v : Option String) (maxLen tid : Nat)
    (req : Request) (store : Store)
    (hd : (validate_task_description maxLen req.description).fst = true) :
    (validate_priority v = true ↔
      (v = some "Low" ∨ v = some "Medium" ∨ v = some "High")) ∧
    (add_handler maxLen req false store).snd =
      (add_task store (req.description.getD "")
        (if validate_priority (some (req.priority.getD "Medium")) then
          req.priority.getD "Medium" else "Medium")).snd ∧
    ((add_handler maxLen req false store).fst).status = "success" ∧
    (update_handler maxLen tid req false store).snd =
      (update_task store tid (req.description.getD "")
        (if validate_priority req.priority then req.priority.getD "Medium"
         else "Medium")).snd := by
  refine ⟨?_, ?_, ?_, ?_⟩
  · simp [validate_priority, or_assoc]
  · simp [add_handler, hd]
  · simp [add_handler, hd, respond_status]
  · simp only [update_handler, hd]
    simp only [Bool.not_true, Bool.false_eq_true, if_false]
    split <;> split <;> rfl

/-- C4 witness: with the unrecognized priority "Urgent", both handlers
store Medium; with a valid description the add handler succeeds. -/
theorem priority_enum_and_fallback_witness :
    (validate_priority (some "Urgent") = true ↔
      ((some "Urgent" : Option String) = some "Low" ∨
        (some "Urgent" : Option String) = some "Medium" ∨
        (some "Urgent" : Option String) = some "High")) ∧
    (add_handler 100 ⟨true, some "milk", some "Urgent"⟩ false []).snd =
      (add_task [] "milk"
        (if validate_priority (some "Urgent") then "Urgent"
         else "Medium")).snd ∧
    ((add_handler 100 ⟨true, some "milk", some "Urgent"⟩ false
      []).fst).status = "success" ∧
    (update_handler 100 1 ⟨true, some "milk", some "Urgent"⟩ false
      []).snd =
      (update_task [] 1 "milk"
        (if validate_priority (some "Urgent") then "Urgent"
         else "Medium")).snd :=
  priority_enum_and_fallback (some "Urgent") 100 1
    ⟨true, some "milk", some "Urgent"⟩ [] (by decide)

/-- C6.  When the persistence call raises a storage exception
(`storageFail = true`), every mutating handler catches it and returns the
generic failure response with error status, leaving the store unchanged
(add and update reach persistence only on a valid description); and a
storage-initialization failure at startup is re-raised, aborting
startup. -/
theorem storage_error_degraded (maxLen tid : Nat) (req : Request)
    (store : Store) (e : String)
    (hd : (validate_task_description maxLen req.description).fst = true) :
    add_handler maxLen req true store =
      (respond req.xhr "Failed to add task. Please try again." "error",
       store) ∧
    update_handler maxLen tid req true store =
      (respond req.xhr "Failed to update task. Please try again." "error",
       store) ∧
    delete_handler tid req.xhr true store =
      (respond req.xhr "Failed to delete task. Please try again." "error",
       store) ∧
    complete_handler tid req.xhr true store =
      (respond req.xhr "Failed to mark task as complete. Please try again."
        "error", store) ∧
    incomplete_handler tid req.xhr true store =
      (respond req.xhr
        "Failed to mark task as incomplete. Please try again." "error",
       store) ∧
    startup (Except.error e) = Except.error e := by
  refine ⟨?_, ?_, rfl, rfl, rfl, rfl⟩
  · simp [add_handler, hd]
  · simp [update_handler, hd]

/-- C6 witness: a concrete failing persistence call degrades every
handler to the generic error response with the store untouched, and a
failing initialization aborts startup. -/
theorem storage_error_degraded_witness :
    add_handler 100 ⟨true, some "milk", some "High"⟩ true
      [⟨1, "a", "Low", false⟩] =
      (respond true "Failed to add task. Please try again." "error",
       [⟨1, "a", "Low", false⟩]) ∧
    update_handler 100 1 ⟨true, some "milk", some "High"⟩ true
      [⟨1, "a", "Low", false⟩] =
      (respond true "Failed to update task. Please try again." "error",
       [⟨1, "a", "Low", false⟩]) ∧
    delete_handler 1 true true [⟨1, "a", "Low", false⟩] =
      (respond true "Failed to delete task. Please try again." "error",
       [⟨1, "a", "Low", false⟩]) ∧
    complete_handler 1 true true [⟨1, "a", "Low", false⟩] =
      (respond true "Failed to mark task as complete. Please try again."
        "error", [⟨1, "a", "Low", false⟩]) ∧
    incomplete_handler 1 true true [⟨1, "a", "Low", false⟩] =
      (respond true
        "Failed to mark task as incomplete. Please try again." "error",
       [⟨1, "a", "Low", false⟩]) ∧
    startup (Except.error "disk unreachable") =
      Except.error "disk unreachable" :=
  storage_error_degraded 100 1 ⟨true, some "milk", some "High"⟩
    [⟨1, "a", "Low", false⟩] "disk unreachable" (by decide)

/-- The add handler's response kind is decided by the origin marker
alone. -/
lemma add_handler_kind (maxLen : Nat) (req : Request) (sf : Bool)
    (store : Store) :
    (add_handler maxLen req sf store).fst.isJson = req.xhr ∧
    (add_handler maxLen req sf store).fst.isRedirectFlash = !req.xhr := by
  constructor <;>
    (unfold add_handler
     dsimp only
     repeat' split) <;>
    simp [respond_isJson, respond_isRedirectFlash]

/-- The update handler's response kind is decided by the origin marker
alone. -/
lemma update_handler_kind (maxLen tid : Nat) (req : Request) (sf : Bool)
    (store : Store) :
    (update_handler maxLen tid req sf store).fst.isJson = req.xhr ∧
    (update_handler maxLen tid req sf store).fst.isRedirectFlash =
      !req.xhr := by
  constructor <;>
    (unfold update_handler
     dsimp only
     repeat' split) <;>
    simp [respond_isJson, respond_isRedirectFlash]

/-- The delete handler's response kind is decided by the origin marker
alone. -/
lemma delete_handler_kind (tid : Nat) (xhr sf : Bool) (store : Store) :
    (delete_handler tid xhr sf store).fst.isJson = xhr ∧
    (delete_handler tid xhr sf store).fst.isRedirectFlash = !xhr := by
  constructor <;>
    (unfold delete_handler
     dsimp only
     repeat' split) <;>
    simp [respond_isJson, respond_isRedirectFlash]

/-- The complete handler's response kind is decided by the origin marker
alone. -/
lemma complete_handler_kind (tid : Nat) (xhr sf : Bool) (store : Store) :
    (complete_handler tid xhr sf store).fst.isJson = xhr ∧
    (complete_handler tid xhr sf store).fst.isRedirectFlash = !xhr := by
  constructor <;>
    (unfold complete_handler
     dsimp only
     repeat' split) <;>
    simp [respond_isJson, respond_isRedirectFlash]

/-- The incomplete handler's response kind is decided by the origin
marker alone. -/
lemma incomplete_handler_kind (tid : Nat) (xhr sf : Bool)
    (store : Store) :
    (incomplete_handler tid xhr sf store).fst.isJson = xhr ∧
    (incomplete_handler tid xhr sf store).fst.isRedirectFlash = !xhr := by
  constructor <;>
    (unfold incomplete_handler
     dsimp only
     repeat' split) <;>
    simp [respond_isJson, respond_isRedirectFlash]

/-- C7 counterexample.  The index handler, on a script-originated request
(origin marker set) with a successful outcome, returns a rendered page:
neither a JSON body nor a redirect+flash, refuting the claim for "every
handler". -/
theorem index_script_request_not_json :
    (index_handler true false [⟨1, "a", "Low", false⟩]).fst.isJson =
      false ∧
    (index_handler true false
      [⟨1, "a", "Low", false⟩]).fst.isRedirectFlash = false ∧
    (index_handler true false [⟨1, "a", "Low", false⟩]).fst =
      Response.render [⟨1, "a", "Low", false⟩] [] :=
  ⟨rfl, rfl, rfl⟩

/-- C7 amended.  For each of the five mutating handlers (add, update,
delete, complete, incomplete) and every outcome, the response is JSON
exactly when the request is script-originated and redirect+flash exactly
otherwise; the index handler instead renders the page regardless of the
origin marker. -/
theorem mutating_handler_response_kind (maxLen tid : Nat) (req : Request)
    (sf : Bool) (store : Store) :
    ((add_handler maxLen req sf store).fst.isJson = req.xhr ∧
      (add_handler maxLen req sf store).fst.isRedirectFlash = !req.xhr) ∧
    ((update_handler maxLen tid req sf store).fst.isJson = req.xhr ∧
      (update_handler maxLen tid req sf store).fst.isRedirectFlash =
        !req.xhr) ∧
    ((delete_handler tid req.xhr sf store).fst.isJson = req.xhr ∧
      (delete_handler tid req.xhr sf store).fst.isRedirectFlash =
        !req.xhr) ∧
    ((complete_handler tid req.xhr sf store).fst.isJson = req.xhr ∧
      (complete_handler tid req.xhr sf store).fst.isRedirectFlash =
        !req.xhr) ∧
    ((incomplete_handler tid req.xhr sf store).fst.isJson = req.xhr ∧
      (incomplete_handler tid req.xhr sf store).fst.isRedirectFlash =
        !req.xhr) :=
  ⟨add_handler_kind maxLen req sf store,
   update_handler_kind maxLen tid req sf store,
   delete_handler_kind tid req.xhr sf store,
   complete_handler_kind tid req.xhr sf store,
   incomplete_handler_kind tid req.xhr sf store⟩

end TaskReminder
